import Mathlib

/-!
Verification of the lunalight-client core subsystems against their
natural-language specification.

The development shallowly embeds the two specified subsystems:

* the authentication token lifecycle (`src/services/token.service.ts`,
  `src/lib/api.ts` alias `authenticatedFetch`, the auth provider and the
  logout service), modelled as pure state-passing functions over an explicit
  `AuthTokens` store, with the browser event-loop interleaving of N
  concurrent refresh callers modelled as the arrival order "all callers run
  their synchronous prefix before the single network call settles";

* the Liquid-to-preview renderer (`generatePreviewHtml` in
  `src/components/themes/theme-preview.tsx`), whose regex-chain rewriting is
  embedded as character-list transducers implementing each of the concrete
  regular expressions used by the source, in the exact order they are applied.

Strings are modelled as `List Char`; JavaScript string truthiness (empty
string is falsy) is modelled by `truthy`, and `null`/`undefined` by
`Option`.
-/

/-- Character-list model of JavaScript strings. -/
abbrev Str := List Char

/-- Coerce a Lean string literal into the `List Char` model. -/
def str (s : String) : Str := s.data

/-- JavaScript truthiness of a nullable string: `null` and `""` are falsy. -/
def truthy : Option Str → Bool
  | none => false
  | some s => !s.isEmpty

/-- In-memory token triple held by the token service (`AuthTokens` in
`token.service.ts`): access token, refresh token and shop domain, each
nullable. -/
structure AuthTokens where
  accessToken : Option Str
  refreshToken : Option Str
  shopDomain : Option Str
deriving DecidableEq

/-- The all-null triple: the state at process start and after every clear. -/
def emptyTokens : AuthTokens := ⟨none, none, none⟩

/-- Result of a store mutation: the new triple together with the sequence of
token-change notifications delivered synchronously to every listener (each
entry is the full triple passed to `notifyListeners`). -/
structure StoreUpdate where
  tokens : AuthTokens
  notifications : List AuthTokens
deriving DecidableEq

/-- Model of `tokenService.setTokens`: unconditionally replaces the whole
triple (the optional shop domain defaults to `null` via `?? null`) and
notifies all listeners with the new triple. -/
def setTokens (accessToken refreshToken shopDomain : Option Str) : StoreUpdate :=
  let t : AuthTokens := ⟨accessToken, refreshToken, shopDomain⟩
  ⟨t, [t]⟩

/-- Model of `tokenService.clearTokens`: resets the triple to all-null and
notifies all listeners. -/
def clearTokens : StoreUpdate := ⟨emptyTokens, [emptyTokens]⟩

/-- Model of `tokenService.hasValidTokenState`: `false` exactly on the
invalid combination (access token truthy, refresh token falsy); `true` for
the three other combinations, including fully empty. -/
def hasValidTokenState (tok : AuthTokens) : Bool :=
  if !truthy tok.accessToken && !truthy tok.refreshToken then true
  else if truthy tok.accessToken && !truthy tok.refreshToken then false
  else true

/-- Externally observable cookie state read by the service: the
`lunalight_access_token` and `lunalight_refresh_token` cookie values
(`getCookie` returns `null` when the cookie is absent). -/
structure CookieState where
  accessTokenCookie : Option Str
  refreshTokenCookie : Option Str

/-- One field of `tokenService.syncFromCookies`: when cookie and memory
disagree, the memory field is assigned `null` if the cookie vanished while
memory holds a value, or assigned the cookie value if the cookie appeared
while memory is empty; in every other case the memory value is kept. This
mirrors the in-place single-field assignments of that source function. -/
def syncField (cookie mem : Option Str) : Option Str :=
  if cookie ≠ mem then
    if !truthy cookie && truthy mem then none
    else if truthy cookie && !truthy mem then cookie
    else mem
  else mem

/-- Result of `tokenService.syncFromCookies`: the possibly-mutated memory
triple, the notifications issued (none: that function never calls
`notifyListeners`), and the returned cookie report. -/
structure SyncOutcome where
  tokens : AuthTokens
  notifications : List AuthTokens
  hasAccessToken : Bool
  hasRefreshToken : Bool
  needsRefresh : Bool
deriving DecidableEq

/-- Model of `tokenService.syncFromCookies` (browser branch): reconciles the
two token fields with the cookies one by one, leaves the shop domain
untouched, notifies nobody, and reports the cookie state. -/
def syncFromCookies (ck : CookieState) (tok : AuthTokens) : SyncOutcome :=
  let a := syncField ck.accessTokenCookie tok.accessToken
  let r := syncField ck.refreshTokenCookie tok.refreshToken
  let hasA := truthy ck.accessTokenCookie
  let hasR := truthy ck.refreshTokenCookie
  { tokens := ⟨a, r, tok.shopDomain⟩
    notifications := []
    hasAccessToken := hasA
    hasRefreshToken := hasR
    needsRefresh := !hasA && hasR }

/-- Result of `tokenService.initFromCookies`: the new memory triple, the
notifications delivered, and the `needsProactiveRefresh` flag returned to
the caller. -/
structure InitOutcome where
  tokens : AuthTokens
  notifications : List AuthTokens
  needsProactiveRefresh : Bool
deriving DecidableEq

/-- Model of `tokenService.initFromCookies` (browser branch). The JWT
payload decoding of the access token is abstracted by the `decode`
parameter (the source's `decodeJwtPayload(...)?.shopDomain ?? null`).
Mirrors the source: an access-token cookie without a refresh-token cookie
is the invalid state and forces a full clear; a refresh-token cookie
installs the cookie pair in memory and requests a proactive refresh when
the access token is absent; with no cookies at all the memory state is left
untouched. -/
def initFromCookies (decode : Str → Option Str) (ck : CookieState)
    (tok : AuthTokens) : InitOutcome :=
  let accessToken := ck.accessTokenCookie
  let refreshToken := ck.refreshTokenCookie
  if truthy accessToken && !truthy refreshToken then
    { tokens := emptyTokens, notifications := [emptyTokens]
      needsProactiveRefresh := false }
  else if truthy refreshToken then
    let shopDomain := if truthy accessToken then accessToken.bind decode else none
    let t : AuthTokens := ⟨accessToken, refreshToken, shopDomain⟩
    { tokens := t, notifications := [t]
      needsProactiveRefresh := !truthy accessToken }
  else
    { tokens := tok, notifications := [], needsProactiveRefresh := false }

/-- Result of the auth provider's mount sequence (`AuthProvider`, second
`useEffect`): the token state after `initFromCookies` and the subsequent
invalid-state check, whether the provider redirected to login, and the
proactive-refresh flag. -/
structure ProviderInitOutcome where
  tokens : AuthTokens
  needsProactiveRefresh : Bool
  redirectedToLogin : Bool
deriving DecidableEq

/-- Model of the auth provider's mount sequence: run `initFromCookies`,
then, if `hasValidTokenState` reports the invalid combination, clear
everything and redirect to login (the source returns early in that case). -/
def providerInit (decode : Str → Option Str) (ck : CookieState)
    (tok : AuthTokens) : ProviderInitOutcome :=
  let i := initFromCookies decode ck tok
  if !hasValidTokenState i.tokens then
    { tokens := clearTokens.tokens, needsProactiveRefresh := i.needsProactiveRefresh
      redirectedToLogin := true }
  else
    { tokens := i.tokens, needsProactiveRefresh := i.needsProactiveRefresh
      redirectedToLogin := false }

deriving instance DecidableEq for Except

/-- Payload of a successful response from the refresh endpoint
(`RefreshTokenResponse.data` in `token.service.ts`). -/
structure RefreshData where
  accessToken : Str
  refreshToken : Str
  accessTokenExpiresAt : Str
  refreshTokenExpiresAt : Str
  shopDomain : Str
deriving DecidableEq

/-- Outcome of the single network interaction performed by
`refreshAccessToken`: either an HTTP response whose JSON body carries the
`ok` flag, the `success` flag, the optional data payload and the optional
error message, or an exception thrown by `fetch`/`json` with the given
message. -/
inductive RefreshNet where
  | response (ok : Bool) (success : Bool) (data : Option RefreshData)
      (errMsg : Option Str)
  | thrown (msg : Str)

/-- The data payload the source accepts as a successful refresh: present
exactly when `response.ok && data.success && data.data` all hold. -/
def netSuccessData : RefreshNet → Option RefreshData
  | .response ok success (some d) _ => if ok && success then some d else none
  | _ => none

/-- The error message produced by a failed refresh: the body's error message
with the source's fallback text for a failed response, or the thrown
message; `none` when the refresh succeeds. -/
def refreshFailureMsg : RefreshNet → Option Str
  | .response ok success data errMsg =>
    if ok && success && data.isSome then none
    else some (errMsg.getD (str "Token refresh failed."))
  | .thrown msg => some msg

/-- Per-caller view of the token service during a refresh: the token triple,
the module-scoped `isRefreshing` flag and the length of `refreshQueue`. -/
structure ServiceState where
  tokens : AuthTokens
  isRefreshing : Bool
  queueLength : Nat
deriving DecidableEq

/-- What one call to `refreshAccessToken` does synchronously before any
suspension point: join the queue when a refresh is already in flight, become
the leader (setting `isRefreshing` before the network call) when a refresh
token is available, or throw `"No refresh token available."` otherwise. -/
inductive EnterResult where
  | leader
  | queued
  | noRefreshToken
deriving DecidableEq

/-- Model of the synchronous prefix of `refreshAccessToken` for one caller. -/
def refreshEnter (st : ServiceState) : ServiceState × EnterResult :=
  if st.isRefreshing then
    ({ st with queueLength := st.queueLength + 1 }, .queued)
  else if truthy st.tokens.refreshToken then
    ({ st with isRefreshing := true }, .leader)
  else
    (st, .noRefreshToken)

/-- Run the synchronous prefixes of `n` concurrent callers in arrival
order. In the browser's run-to-completion model every caller reaches its
first suspension point before the leader's network call settles. -/
def runEnters : Nat → ServiceState → ServiceState × List EnterResult
  | 0, st => (st, [])
  | n + 1, st =>
    let p := refreshEnter st
    let q := runEnters n p.1
    (q.1, p.2 :: q.2)

/-- Effect of the leader resuming after the refresh network call settles:
the final token triple, the notifications issued, the leader's own result
and the single value used to settle every queued caller. -/
structure SettleOutcome where
  tokens : AuthTokens
  notifications : List AuthTokens
  leaderResult : Except Str Str
  queuedResult : Except Str Str
deriving DecidableEq

/-- Model of the tail of `refreshAccessToken` run by the leader once the
network call settles. On success it stores the full new triple via
`setTokens` and resolves every queued caller with the new access token. On
a failed response it clears the store, rejects the queue and throws; that
throw is then caught by the function's own `catch`, which clears the store
a second time (the queue is already empty). On a thrown network error the
`catch` clears the store once and rejects the queue. -/
def refreshSettle (net : RefreshNet) : SettleOutcome :=
  match netSuccessData net with
  | some d =>
    let u := setTokens (some d.accessToken) (some d.refreshToken) (some d.shopDomain)
    { tokens := u.tokens, notifications := u.notifications
      leaderResult := .ok d.accessToken, queuedResult := .ok d.accessToken }
  | none =>
    match net with
    | .response _ _ _ errMsg =>
      let e := errMsg.getD (str "Token refresh failed.")
      { tokens := clearTokens.tokens
        notifications := clearTokens.notifications ++ clearTokens.notifications
        leaderResult := .error e, queuedResult := .error e }
    | .thrown msg =>
      { tokens := clearTokens.tokens, notifications := clearTokens.notifications
        leaderResult := .error msg, queuedResult := .error msg }

/-- Outcome of a whole concurrent-refresh episode: how many network refresh
calls were issued, every caller's settled result in arrival order, the final
token triple and the notifications issued. -/
structure ConcOutcome where
  netCalls : Nat
  results : List (Except Str Str)
  tokens : AuthTokens
  notifications : List AuthTokens
deriving DecidableEq

/-- Model of `n` concurrent `refreshAccessToken` calls: all callers run
their synchronous prefixes in arrival order, then the single in-flight
network call (if any caller became leader) settles and the leader
distributes the outcome. Callers that threw `"No refresh token available."`
did so synchronously without any network call. -/
def runConcurrentRefresh (n : Nat) (tok : AuthTokens) (net : RefreshNet) :
    ConcOutcome :=
  let p := runEnters n ⟨tok, false, 0⟩
  if p.1.isRefreshing then
    let s := refreshSettle net
    { netCalls := 1
      results := p.2.map fun e => match e with
        | .leader => s.leaderResult
        | .queued => s.queuedResult
        | .noRefreshToken => .error (str "No refresh token available.")
      tokens := s.tokens
      notifications := s.notifications }
  else
    { netCalls := 0
      results := p.2.map fun _ => .error (str "No refresh token available.")
      tokens := p.1.tokens
      notifications := [] }

/-- Model of `n` concurrent `tokenService.getValidAccessToken` calls: each
caller returns the stored access token when it is truthy, joins the shared
refresh when a refresh token is truthy, and throws otherwise. -/
def runConcurrentGetValid (n : Nat) (tok : AuthTokens) (net : RefreshNet) :
    ConcOutcome :=
  if truthy tok.accessToken then
    { netCalls := 0
      results := List.replicate n (.ok (tok.accessToken.getD []))
      tokens := tok, notifications := [] }
  else if truthy tok.refreshToken then
    runConcurrentRefresh n tok net
  else
    { netCalls := 0
      results := List.replicate n (.error (str "No authentication tokens available."))
      tokens := tok, notifications := [] }

/-- Single-caller view of `refreshAccessToken` starting with no refresh in
flight, as used by the fetch wrapper: the caller's result, the resulting
token triple and the number of network refresh calls. -/
structure RefreshOutcome where
  result : Except Str Str
  tokens : AuthTokens
  netCalls : Nat
deriving DecidableEq

/-- Model of one `refreshAccessToken` call with an idle service. -/
def refreshOnce (tok : AuthTokens) (net : RefreshNet) : RefreshOutcome :=
  if truthy tok.refreshToken then
    let s := refreshSettle net
    { result := s.leaderResult, tokens := s.tokens, netCalls := 1 }
  else
    { result := .error (str "No refresh token available."), tokens := tok
      netCalls := 0 }

/-- Outcome of the server-side logout notification issued by `logout` in
`shopify.service.ts`: a successful response, a failed HTTP response, or a
thrown network error. -/
inductive LogoutNet where
  | ok
  | httpError (msg : Str)
  | netThrow (msg : Str)

/-- Model of `logout` in `shopify.service.ts`: a total function — both the
failed-response branch and the thrown-error branch are absorbed into
console logging, so the caller never observes a failure. Returns the log
lines emitted. -/
def logoutRequest : LogoutNet → List Str
  | .ok => []
  | .httpError _ => [str "[auth]: Logout request failed:"]
  | .netThrow _ => [str "[auth]: Error during logout request:"]

/-- Model of `AuthProvider.logout`: resolve the shop domain
(`state.shopDomain ?? tokenService.getShopDomain()`), best-effort notify the
server when it is truthy, then unconditionally clear the token store.
Returns the store mutation and the log lines. -/
def providerLogout (net : LogoutNet) (stateShopDomain : Option Str)
    (tok : AuthTokens) : StoreUpdate × List Str :=
  let shopDomain := match stateShopDomain with
    | some d => some d
    | none => tok.shopDomain
  let log := if truthy shopDomain then logoutRequest net else []
  (clearTokens, log)

/-- Model of an HTTP response observed by `authenticatedFetch`: its status
code and, for 401 responses, the values `errorData.error?.type` and
`errorData.error?.message` obtained after the `json().catch(...)` step (an
unparsable body yields `some "UNKNOWN"` for the type, per the catch
fallback; a parsed body without an error object yields `none`). -/
structure BackendResp where
  status : Nat
  errType : Option Str
  errMsg : Option Str
deriving DecidableEq

/-- Model of the `ApiError` raised by the fetch wrapper. -/
structure ApiErrorModel where
  message : Str
  type : Str
  statusCode : Nat
deriving DecidableEq

/-- Full observable outcome of one `authenticatedFetch` call: the returned
response or thrown `ApiError`, the number of underlying backend requests
issued, the number of network refresh calls issued, the number of
invocations of the registered auth-redirect callback, and the final token
triple. -/
structure FetchOutcome where
  result : Except ApiErrorModel BackendResp
  requests : Nat
  refreshNetCalls : Nat
  redirects : Nat
  tokens : AuthTokens
deriving DecidableEq

/-- Model of `getValidAccessTokenForRequest` in the fetch wrapper: return
the stored access token when truthy; otherwise, when a refresh token is
stored (`hasRefreshToken`, a `!== null` check), proactively refresh,
swallowing a refresh failure into `null`. -/
def getValidForRequest (tok : AuthTokens) (net : RefreshNet) :
    Option Str × AuthTokens × Nat :=
  if truthy tok.accessToken then
    (tok.accessToken, tok, 0)
  else if tok.refreshToken.isSome then
    let r := refreshOnce tok net
    match r.result with
    | .ok t => (some t, r.tokens, r.netCalls)
    | .error _ => (none, r.tokens, r.netCalls)
  else
    (none, tok, 0)

/-- The three error types the gate treats as a token problem worth a
refresh-and-retry. -/
def isTokenExpiryType (t : Str) : Bool :=
  t = str "TOKEN_EXPIRED" || t = str "NO_TOKEN" || t = str "INVALID_TOKEN"

/-- Model of `authenticatedFetch`. The backend is a function from request
index to response (request 0 is the initial request, request 1 the retry);
`rnets` gives the outcome of each successive network refresh call. The
redirect callback is registered (`onAuthRedirect` non-null), as the provider
installs it on mount. Mirrors the source: proactively obtain a token (throw
`NOT_AUTHENTICATED` with a redirect when impossible); issue the request; on
a 401 whose error type is a token-expiry class, refresh once and retry once,
returning the second response as-is, and on refresh failure redirect and
throw `SESSION_EXPIRED`; on any other 401 redirect and throw; on any non-401
status return the response unmodified. -/
def authenticatedFetch (tok : AuthTokens) (rnets : Nat → RefreshNet)
    (backend : Nat → BackendResp) : FetchOutcome :=
  let g := getValidForRequest tok (rnets 0)
  match g.1 with
  | none =>
    { result := .error ⟨str "Not authenticated. Please log in.",
        str "NOT_AUTHENTICATED", 401⟩
      requests := 0, refreshNetCalls := g.2.2, redirects := 1
      tokens := g.2.1 }
  | some _ =>
    let r1 := backend 0
    if r1.status = 401 then
      let etype := r1.errType.getD (str "UNKNOWN")
      if isTokenExpiryType etype then
        let ro := refreshOnce g.2.1 (rnets g.2.2)
        match ro.result with
        | .ok _ =>
          { result := .ok (backend 1), requests := 2
            refreshNetCalls := g.2.2 + ro.netCalls, redirects := 0
            tokens := ro.tokens }
        | .error _ =>
          { result := .error ⟨str "Session expired. Please log in again.",
              str "SESSION_EXPIRED", 401⟩
            requests := 1, refreshNetCalls := g.2.2 + ro.netCalls
            redirects := 1, tokens := ro.tokens }
      else
        { result := .error ⟨r1.errMsg.getD (str "Authentication failed."),
            r1.errType.getD (str "AUTH_ERROR"), 401⟩
          requests := 1, refreshNetCalls := g.2.2, redirects := 1
          tokens := g.2.1 }
    else
      { result := .ok r1, requests := 1, refreshNetCalls := g.2.2
        redirects := 0, tokens := g.2.1 }

/-- Whitespace as matched by the JavaScript regex class `\s`, restricted to
the ASCII range plus no-break space (the generated templates are ASCII). -/
def isJsWs (c : Char) : Bool :=
  c = ' ' || c = '\t' || c = '\n' || c = '\r' || c = '\x0b' || c = '\x0c' ||
  c = '\xa0'

/-- Word characters as matched by the JavaScript regex class `[\w_]`. -/
def isWordChar (c : Char) : Bool :=
  c.isAlphanum || c = '_'

/-- Drop the maximal leading run of `\s` characters (greedy `\s*`). -/
def dropWs : Str → Str
  | [] => []
  | c :: cs => if isJsWs c then dropWs cs else c :: cs

/-- Match a literal at the head of the input, returning the rest. -/
def stripLit : Str → Str → Option Str
  | [], s => some s
  | _ :: _, [] => none
  | p :: ps, c :: cs => if p = c then stripLit ps cs else none

/-- Case-insensitive variant of `stripLit` (for the `/i` regex flag). -/
def stripLitCI : Str → Str → Option Str
  | [], s => some s
  | _ :: _, [] => none
  | p :: ps, c :: cs => if p.toLower = c.toLower then stripLitCI ps cs else none

/-- Split the input at the first character satisfying `stop`: the first
component is the maximal `stop`-free prefix (a greedy negated character
class), the second the rest beginning with the stopping character. -/
def breakAt (stop : Char → Bool) : Str → Str × Str
  | [] => ([], [])
  | c :: cs =>
    if stop c then ([], c :: cs)
    else
      let p := breakAt stop cs
      (c :: p.1, p.2)

/-- Trim `\s` from both ends (JavaScript `String.prototype.trim`). -/
def trimWs (s : Str) : Str := (dropWs (dropWs s).reverse).reverse

/-- ECMAScript `GetSubstitution` for a replacement with zero capture groups
(every `String.replace` here uses either a plain string pattern or a
capture-free regex): `$$` yields a dollar, `$&` the matched text, a
dollar-backquote the part of the original string before the match, a
dollar-quote the part after it; every other `$`-sequence (including `$1`..`$9`
and `$<`, since there are no captures) is kept literally. -/
def getSubstitution (matched preceding following : Str) : Str → Str
  | [] => []
  | c :: rest =>
    if c = '$' then
      match rest with
      | [] => ['$']
      | d :: t =>
        if d = '$' then '$' :: getSubstitution matched preceding following t
        else if d = '&' then matched ++ getSubstitution matched preceding following t
        else if d = Char.ofNat 96 then
          preceding ++ getSubstitution matched preceding following t
        else if d = Char.ofNat 39 then
          following ++ getSubstitution matched preceding following t
        else '$' :: d :: getSubstitution matched preceding following t
    else c :: getSubstitution matched preceding following rest

/-- Matcher for the regex `\{\{\s*LIT\s*\}\}` at the head of the input,
returning the rest after the match. -/
def matchMustacheTag (lit : Str) (s : Str) : Option Str :=
  match s with
  | '\x7b' :: '\x7b' :: r =>
    match stripLit lit (dropWs r) with
    | some r2 =>
      match dropWs r2 with
      | '\x7d' :: '\x7d' :: r3 => some r3
      | _ => none
    | none => none
  | _ => none

/-- Matcher for the regex `\{\{\s*LIT[\w_]+\s*\}\}` at the head of the
input (used with `LIT` being `section.settings.` or `block.settings.`). -/
def matchMustacheWordTag (lit : Str) (s : Str) : Option Str :=
  match s with
  | '\x7b' :: '\x7b' :: r =>
    match stripLit lit (dropWs r) with
    | some r2 =>
      let p := breakAt (fun c => !isWordChar c) r2
      match p.1 with
      | [] => none
      | _ :: _ =>
        match dropWs p.2 with
        | '\x7d' :: '\x7d' :: r3 => some r3
        | _ => none
    | none => none
  | _ => none

/-- Matcher for the regex `\{%\s*KW\s*%\}` at the head of the input. -/
def matchTagKw (kw : Str) (s : Str) : Option Str :=
  match s with
  | '\x7b' :: '%' :: r =>
    match stripLit kw (dropWs r) with
    | some r2 =>
      match dropWs r2 with
      | '%' :: '\x7d' :: r3 => some r3
      | _ => none
    | none => none
  | _ => none

/-- Matcher for the regex `\{%\s*KW\s+[^%]+\s*%\}` at the head of the
input. The body between the keyword and the closing `%\x7d` must run to the
first `%`, must span at least two characters, and must start with
whitespace (the backtracking-free residue of `\s+[^%]+\s*`). -/
def matchTagKwArg (kw : Str) (s : Str) : Option Str :=
  match s with
  | '\x7b' :: '%' :: r =>
    match stripLit kw (dropWs r) with
    | some r2 =>
      let p := breakAt (fun c => c = '%') r2
      match p.1, p.2 with
      | c :: _ :: _, '%' :: '\x7d' :: r3 => if isJsWs c then some r3 else none
      | _, _ => none
    | none => none
  | _ => none

/-- Lazy scan for the earliest match of `\{%\s*KW\s*%\}`, returning the
rest after it; the fuel bounds the scan by the input length. -/
def findCloseTag (kw : Str) : Nat → Str → Option Str
  | 0, _ => none
  | fuel + 1, s =>
    match matchTagKw kw s with
    | some r => some r
    | none =>
      match s with
      | [] => none
      | _ :: cs => findCloseTag kw fuel cs

/-- Matcher for `\{%\s*OPEN\s*%\}[\s\S]*?\{%\s*CLOSE\s*%\}` (comment,
schema, stylesheet and javascript blocks): an opening tag followed lazily by
the earliest closing tag. -/
def matchBlockTag (openKw closeKw : Str) (s : Str) : Option Str :=
  (matchTagKw openKw s).bind fun r => findCloseTag closeKw (r.length + 1) r

/-- Quote characters of the class `['"]`. -/
def isQuote (c : Char) : Bool := c = Char.ofNat 39 || c = '"'

/-- Matcher for `\{%\s*section\s+[quote]([^quotes]+)[quote]\s*%\}`,
returning the captured section name and the rest. The opening and closing
quote need not agree, exactly as in the source regex. -/
def matchSectionTag (s : Str) : Option (Str × Str) :=
  match s with
  | '\x7b' :: '%' :: r =>
    match stripLit (str "section") (dropWs r) with
    | some r2 =>
      match r2 with
      | c :: r3 =>
        if isJsWs c then
          match dropWs r3 with
          | q :: r4 =>
            if isQuote q then
              let p := breakAt isQuote r4
              match p.1, p.2 with
              | n :: ns, _ :: r5 =>
                match dropWs r5 with
                | '%' :: '\x7d' :: r6 => some (n :: ns, r6)
                | _ => none
              | _, _ => none
            else none
          | [] => none
        else none
      | [] => none
    | none => none
  | _ => none

/-- Matcher for `\{%\s*(include|render)\s+[quote]([^quotes]+)[quote]\s*[^%]*%\}`. -/
def matchIncludeRenderTag (s : Str) : Option Str :=
  match s with
  | '\x7b' :: '%' :: r =>
    let r1 := dropWs r
    let kwRest := match stripLit (str "include") r1 with
      | some x => some x
      | none => stripLit (str "render") r1
    match kwRest with
    | some r2 =>
      match r2 with
      | c :: r3 =>
        if isJsWs c then
          match dropWs r3 with
          | q :: r4 =>
            if isQuote q then
              let p := breakAt isQuote r4
              match p.1, p.2 with
              | _ :: _, _ :: r5 =>
                let t := breakAt (fun c => c = '%') r5
                match t.2 with
                | '%' :: '\x7d' :: r6 => some r6
                | _ => none
              | _, _ => none
            else none
          | [] => none
        else none
      | [] => none
    | none => none
  | _ => none

/-- Matcher for the final catch-all `\{%[^%]+%\}`. -/
def matchAnyTag (s : Str) : Option Str :=
  match s with
  | '\x7b' :: '%' :: r =>
    let p := breakAt (fun c => c = '%') r
    match p.1, p.2 with
    | _ :: _, '%' :: '\x7d' :: r2 => some r2
    | _, _ => none
  | _ => none

/-- Matcher for the final catch-all `\{\{[^}]+\}\}`. -/
def matchAnyOutput (s : Str) : Option Str :=
  match s with
  | '\x7b' :: '\x7b' :: r =>
    let p := breakAt (fun c => c = '\x7d') r
    match p.1, p.2 with
    | _ :: _, '\x7d' :: '\x7d' :: r2 => some r2
    | _, _ => none
  | _ => none

/-- Global left-to-right replacement as performed by `String.replace` with a
`/g` regex: at each position attempt the matcher; on a match emit its
replacement and resume after the consumed text (the replacement itself is
not rescanned), otherwise keep one character and move on. Every matcher
used here consumes at least two characters, so fuel equal to the input
length is never exhausted. This driver serves the passes whose replacement
is a fixed `$`-free literal or is computed by a function callback (on which
JavaScript performs no `$`-escape expansion); the two passes whose
replacement is the user-supplied brand string go through `gsubSubst`. -/
def gsubAux (m : Str → Option (Str × Str)) : Nat → Str → Str
  | _, [] => []
  | 0, s => s
  | fuel + 1, c :: cs =>
    match m (c :: cs) with
    | some (repl, rest) => repl ++ gsubAux m fuel rest
    | none => c :: gsubAux m fuel cs

/-- Global replacement with fuel set to the input length. -/
def gsub (m : Str → Option (Str × Str)) (s : Str) : Str := gsubAux m s.length s

/-- Lift a plain matcher to a deleting replacement (replace with `""`). -/
def tagGone (m : Str → Option Str) : Str → Option (Str × Str) :=
  fun s => (m s).map fun r => ([], r)

/-- Lift a plain matcher to a constant replacement. -/
def tagTo (m : Str → Option Str) (repl : Str) : Str → Option (Str × Str) :=
  fun s => (m s).map fun r => (repl, r)

/-- Global replacement whose replacement string undergoes `GetSubstitution`
expansion for every match, as `String.replace` does with a string
replacement: `preRev` accumulates (reversed) the original characters before
the scan position, so dollar-backquote and dollar-quote see the original
string's prefix and suffix around each match. -/
def gsubSubstAux (m : Str → Option Str) (repl : Str) :
    Nat → Str → Str → Str
  | _, _, [] => []
  | 0, _, s => s
  | fuel + 1, preRev, c :: cs =>
    match m (c :: cs) with
    | some rest =>
      let matched := (c :: cs).take ((c :: cs).length - rest.length)
      getSubstitution matched preRev.reverse rest repl ++
        gsubSubstAux m repl fuel (matched.reverse ++ preRev) rest
    | none => c :: gsubSubstAux m repl fuel (c :: preRev) cs

/-- Global `$`-expanding replacement with fuel set to the input length. -/
def gsubSubst (m : Str → Option Str) (repl : Str) (s : Str) : Str :=
  gsubSubstAux m repl s.length [] s

/-- Replacement for section-inclusion tags: a placeholder derived from the
section name, upper-cased with hyphens turned into underscores. -/
def sectionTagMatcher : Str → Option (Str × Str) :=
  fun s => (matchSectionTag s).map fun p =>
    (str "\x7b\x7bSECTION_" ++
      (p.1.map Char.toUpper).map (fun c => if c = '-' then '_' else c) ++
      str "\x7d\x7d", p.2)

/-- Model of `processLiquid` inside `generatePreviewHtml`: the fixed ordered
chain of global regex substitutions applied to one file's source text,
exactly in source order. Note that the section-inclusion and
content-placeholder substitutions run before the final catch-all output
substitution, which therefore also consumes the placeholder tokens the
earlier passes introduced. -/
def processLiquid (brandName : Option Str) (content : Str) : Str :=
  let brand := brandName.getD (str "Your Store")
  let p := gsubSubst (matchMustacheTag (str "shop.name")) brand content
  let p := gsubSubst (matchMustacheTag (str "page_title")) brand p
  let p := gsub (tagGone (matchMustacheTag (str "content_for_header"))) p
  let p := gsub (tagTo (matchMustacheTag (str "content_for_layout"))
    (str "\x7b\x7bCONTENT_PLACEHOLDER\x7d\x7d")) p
  let p := gsub (tagTo (matchMustacheWordTag (str "section.settings."))
    (str "Sample Text")) p
  let p := gsub (tagTo (matchMustacheWordTag (str "block.settings."))
    (str "Sample Block Text")) p
  let p := gsub (tagGone (matchTagKwArg (str "if"))) p
  let p := gsub (tagGone (matchTagKw (str "endif"))) p
  let p := gsub (tagGone (matchTagKw (str "else"))) p
  let p := gsub (tagGone (matchTagKwArg (str "elsif"))) p
  let p := gsub (tagGone (matchTagKwArg (str "unless"))) p
  let p := gsub (tagGone (matchTagKw (str "endunless"))) p
  let p := gsub (tagGone (matchTagKwArg (str "for"))) p
  let p := gsub (tagGone (matchTagKw (str "endfor"))) p
  let p := gsub (tagGone (matchTagKwArg (str "capture"))) p
  let p := gsub (tagGone (matchTagKw (str "endcapture"))) p
  let p := gsub (tagGone (matchTagKwArg (str "assign"))) p
  let p := gsub (tagGone (matchBlockTag (str "comment") (str "endcomment"))) p
  let p := gsub (tagGone (matchBlockTag (str "schema") (str "endschema"))) p
  let p := gsub (tagGone (matchBlockTag (str "stylesheet") (str "endstylesheet"))) p
  let p := gsub (tagGone (matchBlockTag (str "javascript") (str "endjavascript"))) p
  let p := gsub sectionTagMatcher p
  let p := gsub (tagGone matchIncludeRenderTag) p
  let p := gsub (tagGone matchAnyTag) p
  gsub (tagGone matchAnyOutput) p

/-- Lazy scan for the earliest closing tag, capturing the text before it
(for the capture group of the block regexes used by `extractCss`). -/
def findCloseCapture (kw : Str) : Nat → Str → Option (Str × Str)
  | 0, _ => none
  | fuel + 1, s =>
    match matchTagKw kw s with
    | some r => some ([], r)
    | none =>
      match s with
      | [] => none
      | c :: cs => (findCloseCapture kw fuel cs).map fun p => (c :: p.1, p.2)

/-- Collect the capture groups of every match of the global stylesheet-block
regex, scanning left to right and resuming after each full match. -/
def scanStyleBlocks : Nat → Str → List Str
  | 0, _ => []
  | _ + 1, [] => []
  | fuel + 1, c :: cs =>
    match (matchTagKw (str "stylesheet") (c :: cs)).bind
        (fun r => findCloseCapture (str "endstylesheet") (r.length + 1) r) with
    | some p => p.1 :: scanStyleBlocks fuel p.2
    | none => scanStyleBlocks fuel cs

/-- Matcher for the case-insensitive regex `<style[^>]*>` at the head of
the input. -/
def matchStyleOpen (s : Str) : Option Str :=
  match stripLitCI (str "<style") s with
  | some r =>
    let p := breakAt (fun c => c = '>') r
    match p.2 with
    | '>' :: r2 => some r2
    | _ => none
  | none => none

/-- Lazy scan for the earliest case-insensitive `</style>`, capturing the
text before it. -/
def findStyleClose : Nat → Str → Option (Str × Str)
  | 0, _ => none
  | fuel + 1, s =>
    match stripLitCI (str "</style>") s with
    | some r => some ([], r)
    | none =>
      match s with
      | [] => none
      | c :: cs => (findStyleClose fuel cs).map fun p => (c :: p.1, p.2)

/-- Collect the capture groups of every match of the global inline
`<style...>...</style>` regex. -/
def scanStyleElems : Nat → Str → List Str
  | 0, _ => []
  | _ + 1, [] => []
  | fuel + 1, c :: cs =>
    match (matchStyleOpen (c :: cs)).bind
        (fun r => findStyleClose (r.length + 1) r) with
    | some p => p.1 :: scanStyleElems fuel p.2
    | none => scanStyleElems fuel cs

/-- Model of `extractCss`: all stylesheet-block captures, then all inline
style-element captures, joined with newlines. -/
def extractCss (content : Str) : Str :=
  List.intercalate (str "\n")
    (scanStyleBlocks (content.length + 1) content ++
     scanStyleElems (content.length + 1) content)

/-- Record lookup `liquidFiles[key] ?? ""`, the file map being modelled as
an association list in insertion order. -/
def lookupFile (files : List (Str × Str)) (key : Str) : Str :=
  match files.find? (fun p => p.1 == key) with
  | some p => p.2
  | none => []

/-- Find the first occurrence of a literal pattern, splitting the input
into the part before it and the part after it. -/
def splitFirst (pat : Str) : Str → Option (Str × Str)
  | [] => if pat.isEmpty then some ([], []) else none
  | c :: cs =>
    match stripLit pat (c :: cs) with
    | some rest => some ([], rest)
    | none => (splitFirst pat cs).map fun p => (c :: p.1, p.2)

/-- JavaScript `String.replace` with a plain string pattern: replace only
the first occurrence, if any, applying `GetSubstitution` expansion to the
replacement string (the matched text is the pattern itself). -/
def replaceFirst (pat repl : Str) (s : Str) : Str :=
  match splitFirst pat s with
  | some p => p.1 ++ getSubstitution pat p.1 p.2 repl ++ p.2
  | none => s

/-- The three user-supplied colors (`colorScheme` prop). -/
structure ColorScheme where
  primaryColor : Str
  secondaryColor : Str
  accentColor : Str

/-- The `:root` block declaring the three brand-color CSS custom
properties, built exactly as the source template literal does; empty when
no color scheme is supplied. -/
def buildColorCss : Option ColorScheme → Str
  | some cs =>
    str "\n    :root \x7b\n      " ++
    (str "--color-primary: " ++ cs.primaryColor ++ str ";") ++
    (str "\n      --color-secondary: " ++ cs.secondaryColor ++ str ";") ++
    (str "\n      --color-accent: " ++ cs.accentColor ++ str ";") ++
    str "\n    \x7d\n    "
  | none => []

/-- The fixed baseline reset/typography ruleset between the color variables
and the extracted stylesheet text. -/
def baselineCss : Str :=
  str "\n      * \x7b\n        box-sizing: border-box;\n        margin: 0;\n        padding: 0;\n      \x7d\n      body \x7b\n        font-family: -apple-system, BlinkMacSystemFont, 'Segoe UI', Roboto, sans-serif;\n        line-height: 1.6;\n        color: #333;\n      \x7d\n      img \x7b\n        max-width: 100%;\n        height: auto;\n      \x7d\n      a \x7b\n        color: var(--color-primary, #000);\n        text-decoration: none;\n      \x7d\n      a:hover \x7b\n        text-decoration: underline;\n      \x7d\n      "

/-- The `baseStyles` template literal: style element with color variables,
baseline rules, then the concatenated extracted CSS. -/
def buildBaseStyles (colorCss allCss : Str) : Str :=
  str "\n    <style>\n      " ++ colorCss ++ baselineCss ++ allCss ++
  str "\n    </style>\n  "

/-- Final style injection: when the document contains `</head>`, the source
calls `html.replace` with the replacement string `baseStyles + "</head>"`,
which therefore undergoes `GetSubstitution` expansion (the replacement
carries user-supplied colors and extracted CSS, so `$`-sequences in them are
expanded); otherwise a synthesized head element is prepended by template
concatenation, with no expansion. -/
def injectStyles (baseStyles html : Str) : Str :=
  match splitFirst (str "</head>") html with
  | some p =>
    p.1 ++ getSubstitution (str "</head>") p.1 p.2 (baseStyles ++ str "</head>") ++ p.2
  | none => str "<head>" ++ baseStyles ++ str "</head>" ++ html

/-- CSS extracted from every file in iteration order, empty extractions
dropped (`filter(Boolean)`), joined with newlines. -/
def computeAllCss (files : List (Str × Str)) : Str :=
  List.intercalate (str "\n")
    ((files.map fun p => extractCss p.2).filter fun c => !c.isEmpty)

/-- The default composition used when the main-content file produced no
section substitutions: header, hero and featured products inside a main
element, then footer, with the template literal's exact whitespace. -/
def fallbackMain (hd hero fp ft : Str) : Str :=
  str "\n      " ++ hd ++ str "\n      <main>\n        " ++ hero ++
  str "\n        " ++ fp ++ str "\n      </main>\n      " ++ ft ++ str "\n    "

/-- The minimal document wrapper synthesized when no layout file exists. -/
def htmlWrapper (brand main : Str) : Str :=
  str "\n      <!DOCTYPE html>\n      <html>\n      <head>\n        <meta charset=\"utf-8\">\n        <meta name=\"viewport\" content=\"width=device-width, initial-scale=1\">\n        <title>" ++
  brand ++
  str "</title>\n      </head>\n      <body>\n        " ++ main ++
  str "\n      </body>\n      </html>\n    "

/-- Everything `generatePreviewHtml` does before style injection: process
the layout, the sections and the index, substitute the first occurrence of
each section placeholder, fall back to the default composition when the
index produced no substitutions, inject the main content at the content
placeholder, and synthesize a wrapper when there is no layout file. -/
def assemblePreviewBody (files : List (Str × Str)) (brandName : Option Str) : Str :=
  let layoutContent := lookupFile files (str "layout/theme.liquid")
  let indexContent := lookupFile files (str "templates/index.liquid")
  let headerContent := lookupFile files (str "sections/header.liquid")
  let footerContent := lookupFile files (str "sections/footer.liquid")
  let heroContent := lookupFile files (str "sections/hero.liquid")
  let featuredProductsContent :=
    lookupFile files (str "sections/featured-products.liquid")
  let html0 := processLiquid brandName layoutContent
  let processedHeader := processLiquid brandName headerContent
  let processedFooter := processLiquid brandName footerContent
  let processedHero := processLiquid brandName heroContent
  let processedFeaturedProducts := processLiquid brandName featuredProductsContent
  let processedIndex := processLiquid brandName indexContent
  let html1 := replaceFirst (str "\x7b\x7bSECTION_HEADER\x7d\x7d") processedHeader html0
  let html2 := replaceFirst (str "\x7b\x7bSECTION_FOOTER\x7d\x7d") processedFooter html1
  let html3 := replaceFirst (str "\x7b\x7bSECTION_HERO\x7d\x7d") processedHero html2
  let html4 := replaceFirst (str "\x7b\x7bSECTION_FEATURED_PRODUCTS\x7d\x7d")
    processedFeaturedProducts html3
  let main0 := processedIndex
  let main1 := replaceFirst (str "\x7b\x7bSECTION_HEADER\x7d\x7d") processedHeader main0
  let main2 := replaceFirst (str "\x7b\x7bSECTION_FOOTER\x7d\x7d") processedFooter main1
  let main3 := replaceFirst (str "\x7b\x7bSECTION_HERO\x7d\x7d") processedHero main2
  let main4 := replaceFirst (str "\x7b\x7bSECTION_FEATURED_PRODUCTS\x7d\x7d")
    processedFeaturedProducts main3
  let mainContent :=
    if trimWs main4 = [] ∨ main4 = processedIndex then
      fallbackMain processedHeader processedHero processedFeaturedProducts
        processedFooter
    else main4
  let html5 := replaceFirst (str "\x7b\x7bCONTENT_PLACEHOLDER\x7d\x7d") mainContent html4
  if layoutContent = [] then
    htmlWrapper (brandName.getD (str "Your Store")) mainContent
  else html5

/-- Model of `generatePreviewHtml`: assemble the document body, then inject
the style block built from the color variables, the baseline rules and the
CSS extracted from every file. -/
def generatePreviewHtml (files : List (Str × Str)) (colorScheme : Option ColorScheme)
    (brandName : Option Str) : Str :=
  injectStyles (buildBaseStyles (buildColorCss colorScheme) (computeAllCss files))
    (assemblePreviewBody files brandName)

/-- Concrete file-set exercising the section fallback: all five
conventional files present, the index free of any section-inclusion
syntax. -/
def fallbackFileSet : List (Str × Str) :=
  [(str "layout/theme.liquid",
    str "<html><head></head><body>\x7b\x7b content_for_layout \x7d\x7d</body></html>"),
   (str "templates/index.liquid", str "<p>Welcome</p>"),
   (str "sections/header.liquid", str "<header>HEADER</header>"),
   (str "sections/hero.liquid", str "<section>HERO</section>"),
   (str "sections/featured-products.liquid", str "<section>FEATURED</section>"),
   (str "sections/footer.liquid", str "<footer>FOOTER</footer>")]

set_option maxRecDepth 100000

lemma truthy_some_of_ne (r : Str) (h : r ≠ []) : truthy (some r) = true := by
  simp [truthy]
  exact h

lemma settle_queued_eq_leader (net : RefreshNet) :
    (refreshSettle net).queuedResult = (refreshSettle net).leaderResult := by
  unfold refreshSettle
  cases h : netSuccessData net with
  | some d => rfl
  | none => cases net <;> rfl

lemma runEnters_refreshing (m : Nat) (st : ServiceState) (h : st.isRefreshing = true) :
    runEnters m st =
      ({ st with queueLength := st.queueLength + m },
       List.replicate m EnterResult.queued) := by
  induction m generalizing st with
  | zero => simp [runEnters]
  | succ k ih =>
    have h1 : refreshEnter st =
        ({ st with queueLength := st.queueLength + 1 }, EnterResult.queued) := by
      simp [refreshEnter, h]
    have h2 := ih { st with queueLength := st.queueLength + 1 } (by simp [h])
    simp [runEnters, h1, h2, List.replicate_succ, Nat.add_assoc, Nat.add_comm,
      Nat.add_left_comm]

lemma runConcurrentRefresh_spec (n : Nat) (tok : AuthTokens) (net : RefreshNet)
    (hn : 1 ≤ n) (hr : truthy tok.refreshToken = true) :
    runConcurrentRefresh n tok net =
      { netCalls := 1
        results := List.replicate n (refreshSettle net).leaderResult
        tokens := (refreshSettle net).tokens
        notifications := (refreshSettle net).notifications } := by
  obtain ⟨m, rfl⟩ : ∃ m, n = m + 1 := ⟨n - 1, by omega⟩
  have h0 : refreshEnter ⟨tok, false, 0⟩ = (⟨tok, true, 0⟩, EnterResult.leader) := by
    simp [refreshEnter, hr]
  have h1 := runEnters_refreshing m ⟨tok, true, 0⟩ rfl
  simp [runConcurrentRefresh, runEnters, h0, h1, List.map_replicate,
    settle_queued_eq_leader, List.replicate_succ]

lemma refreshSettle_success (net : RefreshNet) (d : RefreshData)
    (h : netSuccessData net = some d) :
    refreshSettle net =
      { tokens := ⟨some d.accessToken, some d.refreshToken, some d.shopDomain⟩
        notifications := [⟨some d.accessToken, some d.refreshToken, some d.shopDomain⟩]
        leaderResult := .ok d.accessToken
        queuedResult := .ok d.accessToken } := by
  unfold refreshSettle
  rw [h]
  rfl

lemma refreshFailureMsg_of_none (net : RefreshNet) (h : netSuccessData net = none) :
    ∃ e, refreshFailureMsg net = some e := by
  cases net with
  | response ok success data errMsg =>
    cases data with
    | none => exact ⟨errMsg.getD (str "Token refresh failed."), by simp [refreshFailureMsg]⟩
    | some d =>
      simp only [netSuccessData] at h
      have hc : (ok && success) = false := by
        by_contra hb
        simp [eq_true_of_ne_false hb] at h
      refine ⟨errMsg.getD (str "Token refresh failed."), ?_⟩
      simp [refreshFailureMsg, hc]
  | thrown msg => exact ⟨msg, rfl⟩

lemma netSuccessData_of_failure (net : RefreshNet) (e : Str)
    (h : refreshFailureMsg net = some e) : netSuccessData net = none := by
  cases net with
  | response ok success data errMsg =>
    cases data with
    | none => rfl
    | some d =>
      simp only [refreshFailureMsg] at h
      by_cases hc : (ok && success) = true
      · simp [hc] at h
      · simp [netSuccessData, Bool.eq_false_iff.mpr hc]
  | thrown msg => rfl

lemma refreshSettle_failure (net : RefreshNet) (e : Str)
    (h : refreshFailureMsg net = some e) :
    (refreshSettle net).tokens = emptyTokens ∧
    (refreshSettle net).leaderResult = .error e := by
  have hn := netSuccessData_of_failure net e h
  unfold refreshSettle
  rw [hn]
  cases net with
  | response ok success data errMsg =>
    have : errMsg.getD (str "Token refresh failed.") = e := by
      simp only [refreshFailureMsg] at h
      by_cases hc : (ok && success && data.isSome) = true
      · simp [hc] at h
      · simpa [Bool.eq_false_iff.mpr hc] using h
    simp [this, clearTokens]
  | thrown msg =>
    have : msg = e := by simpa [refreshFailureMsg] using h
    simp [this, clearTokens]

/-- C1: at most one network refresh call is ever in flight: for every
`n ≥ 1`, issuing `n` concurrent `getValidAccessToken()` (equivalently
`refreshAccessToken()`) calls while no access token is present but a
refresh token is, causes exactly one network refresh request, and all `n`
callers settle together — all resolve with the identical new access token,
or all reject with the same error. -/
theorem single_inflight_refresh (n : Nat) (tok : AuthTokens) (net : RefreshNet)
    (r : Str) (hn : 1 ≤ n) (ha : tok.accessToken = none)
    (hr : tok.refreshToken = some r) (hre : r ≠ []) :
    (runConcurrentGetValid n tok net).netCalls = 1 ∧
    (∀ d, netSuccessData net = some d →
      (runConcurrentGetValid n tok net).results =
        List.replicate n (Except.ok d.accessToken)) ∧
    (netSuccessData net = none →
      ∃ e, (runConcurrentGetValid n tok net).results =
        List.replicate n (Except.error e)) := by
  have hat : truthy tok.accessToken = false := by rw [ha]; rfl
  have hrt : truthy tok.refreshToken = true := by
    rw [hr]; exact truthy_some_of_ne r hre
  have hg : runConcurrentGetValid n tok net = runConcurrentRefresh n tok net := by
    simp [runConcurrentGetValid, hat, hrt]
  rw [hg, runConcurrentRefresh_spec n tok net hn hrt]
  refine ⟨rfl, ?_, ?_⟩
  · intro d hd
    rw [refreshSettle_success net d hd]
  · intro hnone
    obtain ⟨e, he⟩ := refreshFailureMsg_of_none net hnone
    exact ⟨e, by rw [(refreshSettle_failure net e he).2]⟩

/-- Witness for C1 at a concrete input: three concurrent callers, a stored
refresh token, a successful refresh response. -/
theorem single_inflight_refresh_witness :
    (runConcurrentGetValid 3 ⟨none, some (str "r"), none⟩
      (RefreshNet.response true true
        (some ⟨str "A", str "R", str "x", str "y", str "S"⟩) none)).netCalls = 1 ∧
    (runConcurrentGetValid 3 ⟨none, some (str "r"), none⟩
      (RefreshNet.response true true
        (some ⟨str "A", str "R", str "x", str "y", str "S"⟩) none)).results =
      List.replicate 3 (Except.ok (str "A")) := by
  have h := single_inflight_refresh 3 ⟨none, some (str "r"), none⟩
    (RefreshNet.response true true
      (some ⟨str "A", str "R", str "x", str "y", str "S"⟩) none)
    (str "r") (by decide) rfl rfl (by decide)
  exact ⟨h.1, h.2.1 ⟨str "A", str "R", str "x", str "y", str "S"⟩ rfl⟩

/-- C4: refresh-failure atomicity: whenever a refresh attempt fails
(non-OK response, unsuccessful body, or thrown network error — exactly the
cases where `refreshFailureMsg` yields an error), `refreshAccessToken`
clears the token store to the all-null triple, rejects every joined caller
with that same error, and leaves the service unauthenticated. -/
theorem refresh_failure_atomicity (n : Nat) (tok : AuthTokens) (net : RefreshNet)
    (r e : Str) (hn : 1 ≤ n) (hr : tok.refreshToken = some r) (hre : r ≠ [])
    (hf : refreshFailureMsg net = some e) :
    (runConcurrentRefresh n tok net).tokens = emptyTokens ∧
    (runConcurrentRefresh n tok net).results =
      List.replicate n (Except.error e) ∧
    (runConcurrentRefresh n tok net).netCalls = 1 := by
  have hrt : truthy tok.refreshToken = true := by
    rw [hr]; exact truthy_some_of_ne r hre
  rw [runConcurrentRefresh_spec n tok net hn hrt]
  obtain ⟨ht, hl⟩ := refreshSettle_failure net e hf
  exact ⟨ht, by rw [hl], rfl⟩

/-- Witness for C4 at a concrete input: two concurrent callers, a thrown
network error. -/
theorem refresh_failure_atomicity_witness :
    (runConcurrentRefresh 2 ⟨none, some (str "r"), none⟩
      (RefreshNet.thrown (str "boom"))).tokens = emptyTokens ∧
    (runConcurrentRefresh 2 ⟨none, some (str "r"), none⟩
      (RefreshNet.thrown (str "boom"))).results =
      List.replicate 2 (Except.error (str "boom")) ∧
    (runConcurrentRefresh 2 ⟨none, some (str "r"), none⟩
      (RefreshNet.thrown (str "boom"))).netCalls = 1 :=
  refresh_failure_atomicity 2 ⟨none, some (str "r"), none⟩
    (RefreshNet.thrown (str "boom")) (str "r") (str "boom")
    (by decide) rfl (by decide) rfl

/-- C2: invalid-state self-healing: whenever the cookie state has an access
token but no refresh token, `initFromCookies` fully clears the store (and
requests no proactive refresh); `hasValidTokenState` reports exactly the
invalid combination as invalid; and the provider's mount sequence never
leaves the invalid combination in place, whatever the cookies and prior
memory state were. -/
theorem invalid_state_self_healing :
    (∀ (decode : Str → Option Str) (ck : CookieState) (tok : AuthTokens),
      truthy ck.accessTokenCookie = true → truthy ck.refreshTokenCookie = false →
      initFromCookies decode ck tok =
        ⟨emptyTokens, [emptyTokens], false⟩) ∧
    (∀ tok : AuthTokens,
      truthy tok.accessToken = true → truthy tok.refreshToken = false →
      hasValidTokenState tok = false) ∧
    (∀ (decode : Str → Option Str) (ck : CookieState) (tok : AuthTokens),
      hasValidTokenState (providerInit decode ck tok).tokens = true) := by
  refine ⟨?_, ?_, ?_⟩
  · intro decode ck tok hc hrc
    simp [initFromCookies, hc, hrc]
  · intro tok ha hr
    simp [hasValidTokenState, ha, hr]
  · intro decode ck tok
    by_cases h : hasValidTokenState (initFromCookies decode ck tok).tokens = true
    · simp [providerInit, h]
    · have h' : hasValidTokenState (initFromCookies decode ck tok).tokens = false := by
        simpa using h
      have hp : providerInit decode ck tok =
          { tokens := clearTokens.tokens
            needsProactiveRefresh := (initFromCookies decode ck tok).needsProactiveRefresh
            redirectedToLogin := true } := by
        simp [providerInit, h']
      rw [hp]
      rfl

/-- Witness for C2 at concrete inputs: invalid cookies are cleared, an
invalid memory state is reported invalid, and the mount sequence heals an
invalid memory state with empty cookies. -/
theorem invalid_state_self_healing_witness :
    initFromCookies (fun _ => none) ⟨some (str "a"), none⟩
      ⟨some (str "x"), none, some (str "s")⟩ =
      ⟨emptyTokens, [emptyTokens], false⟩ ∧
    hasValidTokenState ⟨some (str "x"), none, some (str "s")⟩ = false ∧
    hasValidTokenState
      (providerInit (fun _ => none) ⟨none, none⟩
        ⟨some (str "x"), none, some (str "s")⟩).tokens = true :=
  ⟨invalid_state_self_healing.1 (fun _ => none) ⟨some (str "a"), none⟩
      ⟨some (str "x"), none, some (str "s")⟩ (by decide) (by decide),
   invalid_state_self_healing.2.1 ⟨some (str "x"), none, some (str "s")⟩
      (by decide) (by decide),
   invalid_state_self_healing.2.2 (fun _ => none) ⟨none, none⟩
      ⟨some (str "x"), none, some (str "s")⟩⟩

/-- C7: logout always clears: for every outcome of the server-side logout
notification (success, error response, thrown network error — `logoutRequest`
is total, so the failure never propagates), `AuthProvider.logout` leaves the
token store fully empty and notifies listeners of the cleared triple. -/
theorem logout_always_clears (net : LogoutNet) (stateShopDomain : Option Str)
    (tok : AuthTokens) :
    (providerLogout net stateShopDomain tok).1.tokens = emptyTokens ∧
    (providerLogout net stateShopDomain tok).1.notifications = [emptyTokens] :=
  ⟨rfl, rfl⟩

/-- C9 counterexample: `syncFromCookies` is a state-changing operation that
does not replace the whole triple and notifies nobody. With the access
cookie expired and the refresh cookie unchanged, it nulls the access-token
field alone, keeps the refresh token and shop domain in place, and issues
no notification — refuting the claim that every state-changing operation
replaces the full triple and synchronously notifies every listener. -/
theorem sync_partial_mutation_cex :
    (syncFromCookies ⟨none, some (str "r")⟩
      ⟨some (str "a"), some (str "r"), some (str "s")⟩).tokens =
      ⟨none, some (str "r"), some (str "s")⟩ ∧
    (syncFromCookies ⟨none, some (str "r")⟩
      ⟨some (str "a"), some (str "r"), some (str "s")⟩).tokens ≠
      ⟨some (str "a"), some (str "r"), some (str "s")⟩ ∧
    (syncFromCookies ⟨none, some (str "r")⟩
      ⟨some (str "a"), some (str "r"), some (str "s")⟩).notifications = [] := by
  decide

/-- C9 amended: the store mutations performed through `setTokens` and
`clearTokens` — refresh success, refresh failure, and logout — replace the
whole triple at once and synchronously notify every listener with the new
triple; external cookie-state synchronization (`syncFromCookies`) instead
updates the access- and refresh-token fields individually, never touches
the shop domain, and notifies no listener. -/
theorem full_triple_mutation_amended :
    (∀ net : RefreshNet, (refreshSettle net).notifications ≠ [] ∧
      ∀ t ∈ (refreshSettle net).notifications, t = (refreshSettle net).tokens) ∧
    (∀ (net : LogoutNet) (sd : Option Str) (tok : AuthTokens),
      (providerLogout net sd tok).1.tokens = emptyTokens ∧
      (providerLogout net sd tok).1.notifications = [emptyTokens]) ∧
    (∀ (ck : CookieState) (tok : AuthTokens),
      (syncFromCookies ck tok).notifications = [] ∧
      (syncFromCookies ck tok).tokens.shopDomain = tok.shopDomain) := by
  refine ⟨?_, ?_, ?_⟩
  · intro net
    unfold refreshSettle
    cases netSuccessData net with
    | some d => simp [setTokens]
    | none => cases net <;> simp [clearTokens]
  · intro net sd tok
    exact ⟨rfl, rfl⟩
  · intro ck tok
    exact ⟨rfl, rfl⟩

/-- Witness for the amended C9 at a concrete input: a failed refresh
notifies with the cleared triple, and a concrete cookie synchronization
notifies nobody. -/
theorem full_triple_mutation_amended_witness :
    (refreshSettle (RefreshNet.thrown (str "x"))).notifications ≠ [] ∧
    (syncFromCookies ⟨none, none⟩ ⟨none, none, some (str "s")⟩).notifications = [] :=
  ⟨(full_triple_mutation_amended.1 (RefreshNet.thrown (str "x"))).1,
   (full_triple_mutation_amended.2.2 ⟨none, none⟩ ⟨none, none, some (str "s")⟩).1⟩

/-- C3: gate retry-once: when the caller holds tokens, the backend answers
the first request with a 401 of the token-expiry class, the refresh
succeeds, and the retried request succeeds, `authenticatedFetch` returns
the second response, having issued exactly one refresh call and exactly two
underlying requests — and no redirect. -/
theorem gate_retry_once (tok : AuthTokens) (rnets : Nat → RefreshNet)
    (backend : Nat → BackendResp) (a r t : Str) (d : RefreshData)
    (ha : tok.accessToken = some a) (hane : a ≠ [])
    (hr : tok.refreshToken = some r) (hrne : r ≠ [])
    (h401 : (backend 0).status = 401)
    (het : (backend 0).errType = some t) (hexp : isTokenExpiryType t = true)
    (hnet : netSuccessData (rnets 0) = some d)
    (_h2 : (backend 1).status ≠ 401) :
    (authenticatedFetch tok rnets backend).result = .ok (backend 1) ∧
    (authenticatedFetch tok rnets backend).requests = 2 ∧
    (authenticatedFetch tok rnets backend).refreshNetCalls = 1 ∧
    (authenticatedFetch tok rnets backend).redirects = 0 := by
  have hat : truthy tok.accessToken = true := by
    rw [ha]; exact truthy_some_of_ne a hane
  have hrt : truthy tok.refreshToken = true := by
    rw [hr]; exact truthy_some_of_ne r hrne
  have hg : getValidForRequest tok (rnets 0) = (tok.accessToken, tok, 0) := by
    simp [getValidForRequest, hat]
  have hro : refreshOnce tok (rnets 0) =
      { result := .ok d.accessToken
        tokens := ⟨some d.accessToken, some d.refreshToken, some d.shopDomain⟩
        netCalls := 1 } := by
    simp [refreshOnce, hrt, refreshSettle_success (rnets 0) d hnet]
  simp [authenticatedFetch, hg, ha, h401, het, hexp, hro]

/-- Witness for C3 at a concrete input: expired-token 401 then success. -/
theorem gate_retry_once_witness :
    (authenticatedFetch ⟨some (str "a"), some (str "r"), none⟩
      (fun _ => RefreshNet.response true true
        (some ⟨str "A", str "R", str "x", str "y", str "S"⟩) none)
      (fun i => if i = 0 then ⟨401, some (str "TOKEN_EXPIRED"), none⟩
        else ⟨200, none, none⟩)).result = .ok ⟨200, none, none⟩ ∧
    (authenticatedFetch ⟨some (str "a"), some (str "r"), none⟩
      (fun _ => RefreshNet.response true true
        (some ⟨str "A", str "R", str "x", str "y", str "S"⟩) none)
      (fun i => if i = 0 then ⟨401, some (str "TOKEN_EXPIRED"), none⟩
        else ⟨200, none, none⟩)).requests = 2 ∧
    (authenticatedFetch ⟨some (str "a"), some (str "r"), none⟩
      (fun _ => RefreshNet.response true true
        (some ⟨str "A", str "R", str "x", str "y", str "S"⟩) none)
      (fun i => if i = 0 then ⟨401, some (str "TOKEN_EXPIRED"), none⟩
        else ⟨200, none, none⟩)).refreshNetCalls = 1 := by
  have h := gate_retry_once ⟨some (str "a"), some (str "r"), none⟩
    (fun _ => RefreshNet.response true true
      (some ⟨str "A", str "R", str "x", str "y", str "S"⟩) none)
    (fun i => if i = 0 then ⟨401, some (str "TOKEN_EXPIRED"), none⟩
      else ⟨200, none, none⟩)
    (str "a") (str "r") (str "TOKEN_EXPIRED")
    ⟨str "A", str "R", str "x", str "y", str "S"⟩
    rfl (by decide) rfl (by decide) rfl rfl (by decide) rfl (by decide)
  exact ⟨h.1, h.2.1, h.2.2.1⟩

/-- C8: gate non-auth passthrough: when the caller holds an access token
and the backend's response to the first request has any status other than
401, `authenticatedFetch` returns that response unmodified, with zero
refresh attempts, a single underlying request, no redirect, and an
untouched token store. -/
theorem gate_nonauth_passthrough (tok : AuthTokens) (rnets : Nat → RefreshNet)
    (backend : Nat → BackendResp) (a : Str)
    (ha : tok.accessToken = some a) (hane : a ≠ [])
    (hs : (backend 0).status ≠ 401) :
    (authenticatedFetch tok rnets backend).result = .ok (backend 0) ∧
    (authenticatedFetch tok rnets backend).requests = 1 ∧
    (authenticatedFetch tok rnets backend).refreshNetCalls = 0 ∧
    (authenticatedFetch tok rnets backend).redirects = 0 ∧
    (authenticatedFetch tok rnets backend).tokens = tok := by
  have hat : truthy tok.accessToken = true := by
    rw [ha]; exact truthy_some_of_ne a hane
  have hg : getValidForRequest tok (rnets 0) = (tok.accessToken, tok, 0) := by
    simp [getValidForRequest, hat]
  simp [authenticatedFetch, hg, ha, hs]

/-- Witness for C8 at a concrete input: a 422 validation failure passes
through with no refresh. -/
theorem gate_nonauth_passthrough_witness :
    (authenticatedFetch ⟨some (str "a"), none, none⟩
      (fun _ => RefreshNet.thrown (str "unused"))
      (fun _ => ⟨422, none, some (str "invalid input")⟩)).result =
      .ok ⟨422, none, some (str "invalid input")⟩ ∧
    (authenticatedFetch ⟨some (str "a"), none, none⟩
      (fun _ => RefreshNet.thrown (str "unused"))
      (fun _ => ⟨422, none, some (str "invalid input")⟩)).requests = 1 ∧
    (authenticatedFetch ⟨some (str "a"), none, none⟩
      (fun _ => RefreshNet.thrown (str "unused"))
      (fun _ => ⟨422, none, some (str "invalid input")⟩)).refreshNetCalls = 0 := by
  have h := gate_nonauth_passthrough ⟨some (str "a"), none, none⟩
    (fun _ => RefreshNet.thrown (str "unused"))
    (fun _ => ⟨422, none, some (str "invalid input")⟩)
    (str "a") rfl (by decide) (by decide)
  exact ⟨h.1, h.2.1, h.2.2.1⟩

/-- C6: renderer purity and determinism: the preview renderer is a total
function of its three inputs — the embedding returns a plain string for
every input, including malformed or unbalanced template syntax, which
models "never throws" — so two calls on an identical file-set, color scheme
and brand name yield byte-identical output strings. -/
theorem renderer_deterministic (files₁ files₂ : List (Str × Str))
    (cs₁ cs₂ : Option ColorScheme) (bn₁ bn₂ : Option Str)
    (hf : files₁ = files₂) (hc : cs₁ = cs₂) (hb : bn₁ = bn₂) :
    generatePreviewHtml files₁ cs₁ bn₁ = generatePreviewHtml files₂ cs₂ bn₂ := by
  rw [hf, hc, hb]

/-- Witness for C6 at a concrete input with deliberately malformed,
unbalanced template syntax: the renderer still returns a value, and the two
calls agree. -/
theorem renderer_deterministic_witness :
    generatePreviewHtml [(str "templates/index.liquid", str "\x7b% if x %\x7doops\x7b% endfo")]
      none none =
    generatePreviewHtml [(str "templates/index.liquid", str "\x7b% if x %\x7doops\x7b% endfo")]
      none none :=
  renderer_deterministic
    [(str "templates/index.liquid", str "\x7b% if x %\x7doops\x7b% endfo")]
    [(str "templates/index.liquid", str "\x7b% if x %\x7doops\x7b% endfo")]
    none none none none rfl rfl rfl

/-- C5: renderer section fallback, evaluated at a concrete file-set with a
layout, all four section files, and an index containing no
section-inclusion syntax. The claim expects the output to contain the
processed contents of all four sections; in fact the output contains none
of them: the final catch-all output substitution inside `processLiquid`
deletes the `CONTENT_PLACEHOLDER` token that the earlier
`content_for_layout` substitution inserted into the layout, so the fallback
composition built from the four sections is never injected into the
returned document. -/
theorem section_fallback_dropped :
    ¬ List.IsInfix (str "HEADER")
        (generatePreviewHtml fallbackFileSet none none) ∧
    ¬ List.IsInfix (str "HERO")
        (generatePreviewHtml fallbackFileSet none none) ∧
    ¬ List.IsInfix (str "FEATURED")
        (generatePreviewHtml fallbackFileSet none none) ∧
    ¬ List.IsInfix (str "FOOTER")
        (generatePreviewHtml fallbackFileSet none none) := by
  decide

lemma getSubstitution_cons_of_ne (m p f : Str) (c : Char) (t : Str) (h : c ≠ '$') :
    getSubstitution m p f (c :: t) = c :: getSubstitution m p f t := by
  rw [getSubstitution.eq_def]
  simp [h]

lemma getSubstitution_append_of_dollarFree (m p f xs rest : Str)
    (h : '$' ∉ xs) :
    getSubstitution m p f (xs ++ rest) = xs ++ getSubstitution m p f rest := by
  induction xs with
  | nil => rfl
  | cons c t ih =>
    simp only [List.mem_cons, not_or] at h
    rw [List.cons_append,
      getSubstitution_cons_of_ne m p f c (t ++ rest) (fun e => h.1 e.symm),
      ih h.2]
    rfl

lemma dollarFree_append (a b : Str) (ha : '$' ∉ a) (hb : '$' ∉ b) :
    '$' ∉ a ++ b := by
  simp [List.mem_append]
  exact ⟨ha, hb⟩

lemma infix_injectStyles (pre mid post h : Str) (hfree : '$' ∉ pre ++ mid) :
    List.IsInfix mid (injectStyles ((pre ++ mid) ++ post) h) := by
  unfold injectStyles
  cases splitFirst (str "</head>") h with
  | some p =>
    dsimp only
    have e : ((pre ++ mid) ++ post) ++ str "</head>" =
        (pre ++ mid) ++ (post ++ str "</head>") := by
      simp [List.append_assoc]
    rw [e, getSubstitution_append_of_dollarFree (str "</head>") p.1 p.2
      (pre ++ mid) (post ++ str "</head>") hfree]
    exact ⟨p.1 ++ pre,
      getSubstitution (str "</head>") p.1 p.2 (post ++ str "</head>") ++ p.2,
      by simp [List.append_assoc]⟩
  | none =>
    exact ⟨str "<head>" ++ pre, post ++ (str "</head>" ++ h),
      by simp [List.append_assoc]⟩

lemma stripLit_isSome_iff (pat u : Str) :
    (stripLit pat u).isSome = true ↔ pat <+: u := by
  induction pat generalizing u with
  | nil => simp [stripLit, List.nil_prefix]
  | cons p ps ih =>
    cases u with
    | nil => simp [stripLit, List.prefix_nil]
    | cons c cs =>
      by_cases h : p = c
      · subst h
        simp [stripLit, ih, List.cons_prefix_cons]
      · simp [stripLit, h, List.cons_prefix_cons]

lemma splitFirst_isSome_iff (pat s : Str) :
    (splitFirst pat s).isSome = true ↔ List.IsInfix pat s := by
  induction s with
  | nil =>
    cases pat with
    | nil => simp [splitFirst, List.infix_nil]
    | cons p ps => simp [splitFirst, List.infix_nil]
  | cons c cs ih =>
    cases h : stripLit pat (c :: cs) with
    | some rest =>
      have hp : pat <+: c :: cs :=
        (stripLit_isSome_iff pat (c :: cs)).mp (by simp [h])
      simp [splitFirst, h, List.infix_cons_iff, hp]
    | none =>
      have hp : ¬ pat <+: c :: cs := by
        rw [← stripLit_isSome_iff]
        simp [h]
      simp [splitFirst, h, List.infix_cons_iff, hp, ih]

/-- C10 counterexample: the claim as stated fails on the code. With a
non-empty file-set whose layout contains a head element and the supplied
primary color `$&`, the `String.replace` that splices the style block
before `</head>` applies `$`-escape expansion to the replacement, so the
output does not contain the supplied color textually unmodified — the
declaration reads `--color-primary: </head>;` instead. -/
theorem color_variable_presence_dollar_cex :
    ¬ List.IsInfix (str "--color-primary: " ++ str "$&" ++ str ";")
        (generatePreviewHtml
          [(str "layout/theme.liquid", str "<html><head></head><body></body></html>")]
          (some ⟨str "$&", str "#222222", str "#333333"⟩) none) ∧
    List.IsInfix (str "--color-primary: </head>;")
        (generatePreviewHtml
          [(str "layout/theme.liquid", str "<html><head></head><body></body></html>")]
          (some ⟨str "$&", str "#222222", str "#333333"⟩) none) := by
  constructor
  · rw [← splitFirst_isSome_iff]
    decide
  · rw [← splitFirst_isSome_iff]
    decide

lemma infix_generatePreviewHtml (files : List (Str × Str)) (cs : Option ColorScheme)
    (bn : Option Str) (pre mid post : Str)
    (he : buildBaseStyles (buildColorCss cs) (computeAllCss files) = (pre ++ mid) ++ post)
    (hfree : '$' ∉ pre ++ mid) :
    List.IsInfix mid (generatePreviewHtml files cs bn) := by
  unfold generatePreviewHtml
  rw [he]
  exact infix_injectStyles pre mid post _ hfree

/-- C10 (amended): color variable presence: for every non-empty file-set
and every three supplied color strings that contain no dollar character (in
particular any hex colors), the renderer's output contains the three CSS
custom-property declarations `--color-primary`, `--color-secondary` and
`--color-accent` with exactly the supplied strings as values. The dollar
restriction is forced by the counterexample: the `String.replace` that
splices the style block before `</head>` expands `$`-escapes occurring in
the colors. -/
theorem color_variable_presence_amended (files : List (Str × Str))
    (c : ColorScheme) (bn : Option Str) (_hne : files ≠ [])
    (hp : '$' ∉ c.primaryColor) (hs : '$' ∉ c.secondaryColor)
    (ha : '$' ∉ c.accentColor) :
    List.IsInfix (str "--color-primary: " ++ c.primaryColor ++ str ";")
      (generatePreviewHtml files (some c) bn) ∧
    List.IsInfix (str "--color-secondary: " ++ c.secondaryColor ++ str ";")
      (generatePreviewHtml files (some c) bn) ∧
    List.IsInfix (str "--color-accent: " ++ c.accentColor ++ str ";")
      (generatePreviewHtml files (some c) bn) := by
  refine ⟨?_, ?_, ?_⟩
  · exact infix_generatePreviewHtml files (some c) bn
      (str "\n    <style>\n      " ++ str "\n    :root \x7b\n      ")
      (str "--color-primary: " ++ c.primaryColor ++ str ";")
      ((str "\n      --color-secondary: " ++ c.secondaryColor ++ str ";") ++
       ((str "\n      --color-accent: " ++ c.accentColor ++ str ";") ++
        (str "\n    \x7d\n    " ++ (baselineCss ++
          (computeAllCss files ++ str "\n    </style>\n  ")))))
      (by simp [buildBaseStyles, buildColorCss, List.append_assoc])
      (dollarFree_append _ _ (dollarFree_append _ _ (by decide) (by decide))
        (dollarFree_append _ _ (dollarFree_append _ _ (by decide) hp) (by decide)))
  · exact infix_generatePreviewHtml files (some c) bn
      (str "\n    <style>\n      " ++ (str "\n    :root \x7b\n      " ++
        (str "--color-primary: " ++ (c.primaryColor ++ (str ";" ++ str "\n      ")))))
      (str "--color-secondary: " ++ c.secondaryColor ++ str ";")
      ((str "\n      --color-accent: " ++ c.accentColor ++ str ";") ++
       (str "\n    \x7d\n    " ++ (baselineCss ++
         (computeAllCss files ++ str "\n    </style>\n  "))))
      (by simp [buildBaseStyles, buildColorCss, str, List.append_assoc])
      (dollarFree_append _ _
        (dollarFree_append _ _ (by decide)
          (dollarFree_append _ _ (by decide)
            (dollarFree_append _ _ (by decide)
              (dollarFree_append _ _ hp
                (dollarFree_append _ _ (by decide) (by decide))))))
        (dollarFree_append _ _ (dollarFree_append _ _ (by decide) hs) (by decide)))
  · exact infix_generatePreviewHtml files (some c) bn
      (str "\n    <style>\n      " ++ (str "\n    :root \x7b\n      " ++
        (str "--color-primary: " ++ (c.primaryColor ++ (str ";" ++
          (str "\n      --color-secondary: " ++ (c.secondaryColor ++
            (str ";" ++ str "\n      "))))))))
      (str "--color-accent: " ++ c.accentColor ++ str ";")
      (str "\n    \x7d\n    " ++ (baselineCss ++
        (computeAllCss files ++ str "\n    </style>\n  ")))
      (by simp [buildBaseStyles, buildColorCss, str, List.append_assoc])
      (dollarFree_append _ _
        (dollarFree_append _ _ (by decide)
          (dollarFree_append _ _ (by decide)
            (dollarFree_append _ _ (by decide)
              (dollarFree_append _ _ hp
                (dollarFree_append _ _ (by decide)
                  (dollarFree_append _ _ (by decide)
                    (dollarFree_append _ _ hs
                      (dollarFree_append _ _ (by decide) (by decide)))))))))
        (dollarFree_append _ _ (dollarFree_append _ _ (by decide) ha) (by decide)))

/-- Witness for the amended C10 at a concrete input: a one-file set and
three concrete dollar-free hex colors. -/
theorem color_variable_presence_amended_witness :
    List.IsInfix (str "--color-primary: " ++ str "#111111" ++ str ";")
      (generatePreviewHtml [(str "templates/index.liquid", str "<p>hi</p>")]
        (some ⟨str "#111111", str "#222222", str "#333333"⟩) none) ∧
    List.IsInfix (str "--color-secondary: " ++ str "#222222" ++ str ";")
      (generatePreviewHtml [(str "templates/index.liquid", str "<p>hi</p>")]
        (some ⟨str "#111111", str "#222222", str "#333333"⟩) none) ∧
    List.IsInfix (str "--color-accent: " ++ str "#333333" ++ str ";")
      (generatePreviewHtml [(str "templates/index.liquid", str "<p>hi</p>")]
        (some ⟨str "#111111", str "#222222", str "#333333"⟩) none) :=
  color_variable_presence_amended
    [(str "templates/index.liquid", str "<p>hi</p>")]
    ⟨str "#111111", str "#222222", str "#333333"⟩ none
    (by decide) (by decide) (by decide) (by decide)
